import Mathlib

/-!
Verification development for the dashboard-logger backend (`api/app.py`).

The development shallowly embeds the request handlers of `api/app.py` that
the specification's claims are about: `activity_add` (bulk and single
activity submission with compensating rollback, lines 571-601),
`activity_delete` (lines 627-641), `activity_find` / `project_activities`
(query caps, lines 687-701 and 425-440), `logout` (lines 478-495), and the
identity-resolution pair `decode_auth_token` / `load_user_from_request`
(lines 82-110).

External collaborators (the MongoDB-backed store primitives in
`api/activity.py`, the thread-pool fan-out in `utils.py`, the `jwt`
library, and `json.loads`) are not under `src/`; they are modelled from the
specification, each such definition carrying a doc comment saying so.
Machine behaviour that matters to the claims - Python truthiness, the
semantics of the `in` operator on dicts/lists/strings, Flask's
`jsonify`/`make_response` argument handling - is embedded explicitly.
-/

namespace DashboardLogger

/-- JSON values as Flask's request parsing and `json.loads` produce them:
objects keep their key/value entries in order (Python dicts are ordered and
duplicate-free after parsing). Numbers are modelled as integers; no claim
depends on fractional values. -/
inductive Json where
  | obj (entries : List (String × Json))
  | arr (elems : List Json)
  | str (s : String)
  | num (n : Int)
  | bool (b : Bool)
  | null

/-- Whether a JSON value is a Python `dict` (`isinstance(x, dict)`). -/
def Json.isObj : Json → Bool
  | .obj _ => true
  | _ => false

/-- Whether a JSON value is a Python `str`. -/
def Json.isStr : Json → Bool
  | .str _ => true
  | _ => false

/-- Python `d.get(key)` on a dict: the first (only) entry with that key. -/
def Json.lookup (entries : List (String × Json)) (key : String) : Option Json :=
  (entries.find? (fun e => e.1 = key)).map (·.2)

/-- Python `==` between a JSON value and the string `key`: true exactly for
an equal string (a Python string never equals a number, list, dict, bool or
None). Used for the list case of the `in` operator. -/
def Json.eqStr (key : String) : Json → Bool
  | .str s => s = key
  | _ => false

/-- Substring test on lists of characters, as Python's `needle in haystack`
for strings. Recursion is structural on the haystack. -/
def charsContain (needle : List Char) : List Char → Bool
  | [] => needle.isEmpty
  | c :: rest => needle.isPrefixOf (c :: rest) || charsContain needle rest

/-- Python `key in value` for the values `flask` can hand to the handler:
key membership for dicts, element equality for lists, substring test for
strings; a `TypeError` (modelled as `Except.error`) for numbers, booleans
and None. -/
def pyContains (key : String) : Json → Except Unit Bool
  | .obj entries => .ok (entries.any (fun e => e.1 = key))
  | .arr elems => .ok (elems.any (Json.eqStr key))
  | .str s => .ok (charsContain key.data s.data)
  | _ => .error ()

/-- Python `for x in value`: lists yield their elements, strings their
characters (as one-character strings), dicts their keys; numbers, booleans
and None raise `TypeError`. -/
def pyIter : Json → Except Unit (List Json)
  | .arr elems => .ok elems
  | .str s => .ok (s.data.map (fun c => .str (String.mk [c])))
  | .obj entries => .ok (entries.map (fun e => .str e.1))
  | _ => .error ()

/-- Values the variable `result` ranges over inside `activity_add`
(app.py lines 583-597): the integer sentinel `1`, a single task outcome
(an inserted identifier or the falsy failure marker), or the whole outcome
list `all_result`. -/
inductive ResVal where
  | int (n : Nat)
  | opt (o : Option Nat)
  | list (l : List (Option Nat))
deriving DecidableEq

/-- Python truthiness of a `ResVal`: a nonzero integer, a present
identifier, or a nonempty list. Identifiers model Mongo ObjectIds, which
are truthy whenever present, so a present identifier is always truthy. -/
def ResVal.truthy : ResVal → Bool
  | .int n => n ≠ 0
  | .opt o => o.isSome
  | .list l => !l.isEmpty

/-- One iteration of the aggregation loop of `activity_add` (app.py lines
584-586): `if not part_result: result = part_result`. -/
def loop_step (r : ResVal) (part : Option Nat) : ResVal :=
  if (ResVal.opt part).truthy then r else .opt part

/-- The aggregation loop of `activity_add` (app.py lines 583-586):
`result = 1`, then each `part_result` is folded in by `loop_step`. -/
def loop_result (all_result : List (Option Nat)) : ResVal :=
  all_result.foldl loop_step (.int 1)

/-- A persisted activity record: store-assigned identifier, owning user,
and the submitted payload (spec section 3: ownership is fixed at creation). -/
structure Activity where
  id : Nat
  owner : String
  payload : Json

/-- The persistent activity collection: the records plus the next fresh
identifier the store will assign. Identifiers model Mongo ObjectIds; `Nat`
is used so freshness is plain arithmetic. -/
structure Store where
  records : List Activity
  nextId : Nat

/-- A store is well formed when every persisted identifier is below the
next fresh one; inserts preserve this. -/
def Store.wf (s : Store) : Bool :=
  s.records.all (fun a => a.id < s.nextId)

/-- Modelled from the spec: `add_activity` lives in `api/activity.py`,
which is not under `src/`. Spec section 4.2: insert validates nothing
beyond the payload being a well-formed mapping, assigns a new identifier,
persists atomically, and returns Failure (a falsy value, not an exception)
when the underlying persistence operation cannot complete. The `ok` flag
is the per-task infrastructure oracle for that last case. -/
def add_activity (ok : Bool) (payload : Json) (owner : String) (s : Store) :
    Option Nat × Store :=
  if ok && payload.isObj then
    (some s.nextId, ⟨s.records ++ [⟨s.nextId, owner, payload⟩], s.nextId + 1⟩)
  else
    (none, s)

/-- Modelled from the spec: `delete_activity` lives in `api/activity.py`,
which is not under `src/`. Spec section 4.2: delete removes the record
with the given identifier and reports the number of affected rows (0 means
NotFound). Rollback-step deletes are best-effort (spec section 7); an
infrastructure failure of a rollback delete is not modelled. -/
def delete_activity (id : Nat) (s : Store) : Nat × Store :=
  let remaining := s.records.filter (fun a => a.id ≠ id)
  (s.records.length - remaining.length, ⟨remaining, s.nextId⟩)

/-- Modelled from the spec: `execute_function_in_parallel` lives in
`utils.py`, which is not under `src/`. Spec section 4.3 step 2: tasks run
concurrently but their outcomes are collected positionally aligned with
the input order, and the coordinator joins on all of them before
continuing (section 5). The fan-out is therefore modelled as a traversal
returning the aligned outcome list and the store after all inserts; the
oracle gives each task's infrastructure outcome (missing entries default
to success). -/
def execute_function_in_parallel (oracle : List Bool) (owner : String) :
    List Json → Store → List (Option Nat) × Store
  | [], s => ([], s)
  | p :: ps, s =>
    let step := add_activity (oracle.head?.getD true) p owner s
    let rest := execute_function_in_parallel (oracle.drop 1) owner ps step.2
    (step.1 :: rest.1, rest.2)

/-- The rollback loop of `activity_add` (app.py lines 591-593): for every
truthy `part_result`, call `delete_activity` on it. Returns the final
store and the list of identifiers the compensating deletes were issued
for, in order. -/
def rollback : List (Option Nat) → Store → Store × List Nat
  | [], s => (s, [])
  | none :: rest, s => rollback rest s
  | some id :: rest, s =>
    let deleted := delete_activity id s
    let tail := rollback rest deleted.2
    (tail.1, id :: tail.2)

/-- The responses `activity_add` can produce: the 400 `Wrong format`
response (line 577), the 500 `Failed to create activity` response
(lines 598-599), the 201 `Success` response carrying `result` (line 601),
or the framework's 500 page for an exception the handler does not catch
(Python `TypeError`/`AttributeError` escaping the handler). -/
inductive AddResponse where
  | wrongFormat
  | failedToCreate
  | created (result : ResVal)
  | serverError
deriving DecidableEq

/-- The HTTP status each `activity_add` response is sent with:
`HTTPStatus.BAD_REQUEST` (line 577), `HTTPStatus.INTERNAL_SERVER_ERROR`
(line 599), `HTTPStatus.CREATED` (line 601), and the framework's 500 page
for an uncaught exception. -/
def AddResponse.statusCode : AddResponse → Nat
  | .wrongFormat => 400
  | .failedToCreate => 500
  | .created _ => 201
  | .serverError => 500

/-- Everything observable about one run of the `activity_add` handler: the
response, the store afterwards, the payloads passed to `add_activity`
(insert attempts, in order), and the identifiers passed to
`delete_activity` (compensating deletes, in order). -/
structure AddOutcome where
  response : AddResponse
  store : Store
  attempts : List Json
  deleted : List Nat

/-- The payload coercion of `activity_add` (app.py lines 572-577):
`activity_data = data.get(ACTIVITY_KEY)`; if it is not a dict, try
`json.loads` on it, answering `Wrong format` (here `none`) when that
raises. `json.loads` raises `TypeError` on `None` and on any non-string
argument; on a string it returns whatever the string parses to - not
necessarily a dict. `parse` models `json.loads` on strings. -/
def get_activity_data (parse : String → Option Json) : Option Json → Option Json
  | none => none
  | some v =>
    if v.isObj then some v
    else match v with
      | .str s => parse s
      | _ => none

/-- The `activity_add` handler, app.py lines 571-601, from the
`data.get(ACTIVITY_KEY)` result onwards. `parse` models `json.loads`,
`oracle` the per-task infrastructure outcomes, `owner` the current user.
The batch branch is taken when `ACTIVITIES_KEY in activity_data` holds;
`activity_data.get(ACTIVITIES_KEY, [])` only exists on dicts (on any other
value the attribute access raises, producing the framework 500), and
iterating its value raises on non-iterables. -/
def activity_add (parse : String → Option Json) (raw : Option Json)
    (oracle : List Bool) (owner : String) (s : Store) : AddOutcome :=
  match get_activity_data parse raw with
  | none => ⟨.wrongFormat, s, [], []⟩
  | some activity_data =>
    match pyContains "activities" activity_data with
    | .error _ => ⟨.serverError, s, [], []⟩
    | .ok true =>
      match activity_data with
      | .obj entries =>
        match pyIter ((Json.lookup entries "activities").getD (.arr [])) with
        | .error _ => ⟨.serverError, s, [], []⟩
        | .ok activities =>
          let run := execute_function_in_parallel oracle owner activities s
          let all_result := run.1
          if (loop_result all_result).truthy then
            if (ResVal.list all_result).truthy then
              ⟨.created (.list all_result), run.2, activities, []⟩
            else
              ⟨.failedToCreate, run.2, activities, []⟩
          else
            let rb := rollback all_result run.2
            ⟨.failedToCreate, rb.1, activities, rb.2⟩
      | _ => ⟨.serverError, s, [], []⟩
    | .ok false =>
      let ins := add_activity (oracle.head?.getD true) activity_data owner s
      if (ResVal.opt ins.1).truthy then
        ⟨.created (.opt ins.1), ins.2, [activity_data], []⟩
      else
        ⟨.failedToCreate, ins.2, [activity_data], []⟩

/-- Replace every occurrence of `pat` in a character list, left to right,
as Python `str.replace` does. `fuel` bounds the recursion and is
instantiated with the haystack length, which suffices because every step
consumes at least one character when `pat` is nonempty (every use site
passes the nonempty pattern `Token `). -/
def replaceChars (pat rep : List Char) : Nat → List Char → List Char
  | 0, l => l
  | _, [] => []
  | fuel + 1, c :: rest =>
    if pat.isPrefixOf (c :: rest) then
      rep ++ replaceChars pat rep fuel ((c :: rest).drop pat.length)
    else
      c :: replaceChars pat rep fuel rest

/-- Python `s.replace(pat, rep)`: replace every occurrence. -/
def pyReplace (s pat rep : String) : String :=
  ⟨replaceChars pat.data rep.data s.data.length s.data⟩

/-- Outcomes of the external `jwt.decode` call with the application
secret: the library raises `ExpiredSignatureError` or `InvalidTokenError`
(a missing or garbled signature falls under the latter), or returns a
payload whose `sub` field carries the subject identifier - the only field
`decode_auth_token` reads. -/
inductive JwtOutcome where
  | expired
  | invalid
  | ok (sub : String)

/-- A registered user; only the identifier matters to identity
resolution. -/
structure User where
  id : String

/-- `load_user` (app.py lines 51-58): look an identifier up in the User
collection; `none` when no such user exists. -/
def load_user (users : List User) (user_id : String) : Option User :=
  users.find? (fun u => u.id = user_id)

/-- `decode_auth_token` (app.py lines 82-96): the token's subject on
success, `None` when the jwt library reports an expired signature or an
invalid token. `jwt_decode` models the external `jwt.decode` call. -/
def decode_auth_token (jwt_decode : String → JwtOutcome)
    (auth_token : String) : Option String :=
  match jwt_decode auth_token with
  | .ok sub => some sub
  | .expired => none
  | .invalid => none

/-- `load_user_from_request` (app.py lines 99-110): strip the `Token `
prefix convention from the Authorization header (an absent header
defaults to the empty string), treat an empty remainder as
unauthenticated, decode the token, and on a truthy subject look the user
up. Totality of this definition reflects that every failure mode in the
source yields `None` rather than an exception escaping to the caller. -/
def load_user_from_request (jwt_decode : String → JwtOutcome)
    (users : List User) (auth_header : Option String) : Option User :=
  let token := pyReplace (auth_header.getD "") "Token " ""
  if token = "" then none
  else
    match decode_auth_token jwt_decode token with
    | some user_id => if user_id = "" then none else load_user users user_id
    | none => none

/-- The `amount_to_return` computation of `activity_find` (app.py line
689): the requested amount (default 100) capped at 1000. Values are `Int`
because Python's `int()` accepts negative requests. -/
def activity_find_amount (requested : Option Int) : Int :=
  min (requested.getD 100) 1000

/-- The `amount_to_return` computation of `project_activities` (app.py
line 427): the requested amount (default 100) capped at 10000. -/
def project_activities_amount (requested : Option Int) : Int :=
  min (requested.getD 100) 10000

/-- An HTTP response: the serialized JSON body and the status code. -/
structure HttpResponse where
  body : Json
  status : Nat

/-- Flask `jsonify` with one argument: that value as the body, default
status 200. -/
def jsonify (body : Json) : HttpResponse := ⟨body, 200⟩

/-- Flask `jsonify` with two positional arguments: it serializes them as
a two-element JSON array - the second argument is NOT interpreted as a
status code - and the status is the default 200. -/
def jsonify_pair (fst snd : Json) : HttpResponse := ⟨.arr [fst, snd], 200⟩

/-- Flask `make_response` applied to an already-built response: returned
unchanged. -/
def make_response (r : HttpResponse) : HttpResponse := r

/-- Flask `make_response` with an explicit status code as its second
argument: overrides the status. -/
def make_response_with (r : HttpResponse) (status : Nat) : HttpResponse :=
  ⟨r.body, status⟩

/-- The `activity_delete` handler (app.py lines 627-641). `del_outcome`
models the result of the `delete_activity` store primitive for the
requested identifier (spec section 4.2: `some n` rows affected with 0
meaning NotFound, `none` an infrastructure failure); the returned flag
records whether that primitive was invoked at all. The empty-data branch
(lines 630-631) passes `HTTPStatus.BAD_REQUEST` as a second positional
argument to `jsonify`, not to `make_response`. -/
def activity_delete (del_outcome : Option Nat)
    (activity_id : Option String) : HttpResponse × Bool :=
  if (activity_id.getD "") = "" then
    (make_response (jsonify_pair (.obj [("message", .str "Empty data")])
        (.num 400)), false)
  else
    match del_outcome with
    | some 0 =>
      (make_response_with (jsonify (.obj [("message",
          .str "Activity with this id was not found")])) 404, true)
    | none =>
      (make_response_with (jsonify (.obj [("message",
          .str "Failed to delete activity")])) 500, true)
    | some (_ + 1) =>
      (make_response_with (jsonify (.obj [("message", .str "Success")])) 200,
        true)

/-- The `logout` handler (app.py lines 478-495). `logout_raises` models
whether the external `logout_user()` call raises; the handler catches and
logs any exception (lines 491-494) and builds the success response
afterwards either way. The returned flag records whether the session was
actually ended. -/
def logout (logout_raises : Bool) : HttpResponse × Bool :=
  (make_response_with (jsonify (.obj [("message", .str "Success")])) 200,
    !logout_raises)

/-- Unfolding lemma for the aggregation fold with an arbitrary running
value: the final value is truthy exactly when the running value is truthy
and every remaining outcome is a success. -/
theorem loop_foldl_truthy (rs : List (Option Nat)) :
    ∀ r : ResVal,
      (rs.foldl loop_step r).truthy = (r.truthy && rs.all (·.isSome)) := by
  induction rs with
  | nil => intro r; simp
  | cons part rest ih =>
    intro r
    cases part with
    | none =>
      rw [List.foldl_cons, show loop_step r none = ResVal.opt none from rfl, ih]
      simp [ResVal.truthy]
    | some id =>
      rw [List.foldl_cons, show loop_step r (some id) = r from rfl, ih]
      simp [ResVal.truthy]

/-- The aggregation loop judges the batch successful exactly when every
task outcome is a success. -/
theorem loop_result_truthy (rs : List (Option Nat)) :
    (loop_result rs).truthy = rs.all (·.isSome) := by
  simpa [loop_result, ResVal.truthy] using loop_foldl_truthy rs (.int 1)

/-- An insert that goes through appends one record with the next fresh
identifier and bumps the counter. -/
theorem add_activity_pos {ok : Bool} {payload : Json} {owner : String} {s : Store}
    (h : (ok && payload.isObj) = true) :
    add_activity ok payload owner s
      = (some s.nextId, ⟨s.records ++ [⟨s.nextId, owner, payload⟩], s.nextId + 1⟩) := by
  simp [add_activity, h]

/-- A failed insert reports the falsy marker and leaves the store alone. -/
theorem add_activity_neg {ok : Bool} {payload : Json} {owner : String} {s : Store}
    (h : (ok && payload.isObj) = false) :
    add_activity ok payload owner s = (none, s) := by
  simp [add_activity, h]

/-- Unfolding of the fan-out on a nonempty payload list. -/
theorem exec_cons (oracle : List Bool) (owner : String) (p : Json)
    (ps : List Json) (s : Store) :
    execute_function_in_parallel oracle owner (p :: ps) s
      = ((add_activity (oracle.head?.getD true) p owner s).1
            :: (execute_function_in_parallel (oracle.drop 1) owner ps
                  (add_activity (oracle.head?.getD true) p owner s).2).1,
          (execute_function_in_parallel (oracle.drop 1) owner ps
            (add_activity (oracle.head?.getD true) p owner s).2).2) := rfl

/-- Structure of the fan-out: it appends some list of new records to the
store, the successful outcomes are exactly the identifiers of those new
records (in order), the fresh-identifier counter never decreases, and
every new record's identifier is at least the counter the run started
with. -/
theorem exec_spec (owner : String) :
    ∀ (payloads : List Json) (oracle : List Bool) (s : Store),
      ∃ new : List Activity,
        (execute_function_in_parallel oracle owner payloads s).2.records
            = s.records ++ new ∧
        (execute_function_in_parallel oracle owner payloads s).1.filterMap (fun o => o)
            = new.map (·.id) ∧
        s.nextId ≤ (execute_function_in_parallel oracle owner payloads s).2.nextId ∧
        ∀ a ∈ new, s.nextId ≤ a.id := by
  intro payloads
  induction payloads with
  | nil =>
    intro oracle s
    exact ⟨[], by simp [execute_function_in_parallel],
      by simp [execute_function_in_parallel], Nat.le_refl _, by simp⟩
  | cons p ps ih =>
    intro oracle s
    cases hok : oracle.head?.getD true && p.isObj with
    | true =>
      obtain ⟨new, e1, e2, e3, e4⟩ :=
        ih (oracle.drop 1) ⟨s.records ++ [⟨s.nextId, owner, p⟩], s.nextId + 1⟩
      refine ⟨⟨s.nextId, owner, p⟩ :: new, ?_, ?_, ?_, ?_⟩
      · rw [exec_cons, add_activity_pos hok]
        rw [e1]; simp
      · rw [exec_cons, add_activity_pos hok]
        simp only [List.filterMap_cons]
        rw [e2]; rfl
      · rw [exec_cons, add_activity_pos hok]
        exact Nat.le_trans (Nat.le_succ _) e3
      · intro a ha
        rcases List.mem_cons.mp ha with h | h
        · rw [h]
        · exact Nat.le_trans (Nat.le_succ _) (e4 a h)
    | false =>
      obtain ⟨new, e1, e2, e3, e4⟩ := ih (oracle.drop 1) s
      refine ⟨new, ?_, ?_, ?_, e4⟩
      · rw [exec_cons, add_activity_neg hok]; exact e1
      · rw [exec_cons, add_activity_neg hok]
        simp only [List.filterMap_cons]
        exact e2
      · rw [exec_cons, add_activity_neg hok]; exact e3

/-- Structure of the rollback loop: it issues compensating deletes for
exactly the successful outcomes (in order), removes exactly the records
bearing those identifiers, and does not touch the fresh-identifier
counter. -/
theorem rollback_spec :
    ∀ (rs : List (Option Nat)) (s : Store),
      (rollback rs s).2 = rs.filterMap (fun o => o) ∧
      (rollback rs s).1.records
        = s.records.filter (fun a => decide (a.id ∉ rs.filterMap (fun o => o))) ∧
      (rollback rs s).1.nextId = s.nextId := by
  intro rs
  induction rs with
  | nil =>
    intro s
    exact ⟨rfl, by simp [rollback], rfl⟩
  | cons part rest ih =>
    intro s
    cases part with
    | none =>
      simpa [rollback, List.filterMap_cons] using ih s
    | some id =>
      obtain ⟨h1, h2, h3⟩ := ih (delete_activity id s).2
      refine ⟨?_, ?_, ?_⟩
      · show id :: (rollback rest (delete_activity id s).2).2 = _
        rw [h1]; rfl
      · show (rollback rest (delete_activity id s).2).1.records = _
        rw [h2]
        show ((s.records.filter _).filter _) = _
        rw [List.filter_filter]
        simp only [List.filterMap_cons]
        congr 1
        funext a
        by_cases hid : a.id = id <;>
          by_cases hmem : a.id ∈ rest.filterMap (fun o => o) <;>
            simp [hid, hmem]
      · show (rollback rest (delete_activity id s).2).1.nextId = _
        rw [h3]; rfl

/-- Unfolding of `activity_add` on a request whose payload is a dict whose
only entry is the `activities` list: the handler takes the batch branch. -/
theorem activity_add_batch (parse : String → Option Json) (payloads : List Json)
    (oracle : List Bool) (owner : String) (s : Store) :
    activity_add parse (some (.obj [("activities", .arr payloads)])) oracle owner s
      = (if (loop_result
              (execute_function_in_parallel oracle owner payloads s).1).truthy then
           if (ResVal.list
                (execute_function_in_parallel oracle owner payloads s).1).truthy then
             ⟨.created (.list (execute_function_in_parallel oracle owner payloads s).1),
               (execute_function_in_parallel oracle owner payloads s).2, payloads, []⟩
           else
             ⟨.failedToCreate,
               (execute_function_in_parallel oracle owner payloads s).2, payloads, []⟩
         else
           ⟨.failedToCreate,
             (rollback (execute_function_in_parallel oracle owner payloads s).1
               (execute_function_in_parallel oracle owner payloads s).2).1, payloads,
             (rollback (execute_function_in_parallel oracle owner payloads s).1
               (execute_function_in_parallel oracle owner payloads s).2).2⟩) := rfl

/-- C1: for every batch submission in which at least one per-payload
insert fails, the coordinator reports overall failure and issues a
compensating delete for exactly those payloads whose insert succeeded (in
order, and for no others), and the store afterwards holds exactly the
records it held before the call - no strict, nonempty subset of the
batch's records remains attributable to the call. -/
theorem c1_partial_failure_rolled_back (parse : String → Option Json)
    (payloads : List Json) (oracle : List Bool) (owner : String) (s : Store)
    (hwf : s.wf = true)
    (hfail : (execute_function_in_parallel oracle owner payloads s).1.any
        (fun o => o.isNone) = true) :
    (activity_add parse (some (.obj [("activities", .arr payloads)]))
        oracle owner s).response = .failedToCreate ∧
    (activity_add parse (some (.obj [("activities", .arr payloads)]))
        oracle owner s).deleted
      = (execute_function_in_parallel oracle owner payloads s).1.filterMap
          (fun o => o) ∧
    (activity_add parse (some (.obj [("activities", .arr payloads)]))
        oracle owner s).store.records = s.records := by
  have hnotall :
      (loop_result (execute_function_in_parallel oracle owner payloads s).1).truthy
        = false := by
    rw [loop_result_truthy]
    obtain ⟨o, ho, hno⟩ := List.any_eq_true.mp hfail
    have honone : o = none := by cases o <;> simp_all
    subst honone
    cases hall : (execute_function_in_parallel oracle owner payloads s).1.all
        (·.isSome) with
    | false => rfl
    | true =>
      have := List.all_eq_true.mp hall none ho
      simp at this
  rw [activity_add_batch, hnotall]
  obtain ⟨hrb1, hrb2, _⟩ :=
    rollback_spec (execute_function_in_parallel oracle owner payloads s).1
      (execute_function_in_parallel oracle owner payloads s).2
  obtain ⟨new, he1, he2, _, he4⟩ := exec_spec owner payloads oracle s
  refine ⟨rfl, hrb1, ?_⟩
  show (rollback _ _).1.records = s.records
  rw [hrb2, he1, List.filter_append, he2]
  have hold : s.records.filter (fun a => decide (a.id ∉ new.map (·.id)))
      = s.records := by
    rw [List.filter_eq_self]
    intro a ha
    simp only [decide_eq_true_eq]
    intro hmem
    obtain ⟨b, hb, hba⟩ := List.mem_map.mp hmem
    have hlt : a.id < s.nextId := by
      have := List.all_eq_true.mp hwf a ha
      simpa using this
    have hge : s.nextId ≤ b.id := he4 b hb
    omega
  have hnew : new.filter (fun a => decide (a.id ∉ new.map (·.id))) = [] := by
    rw [List.filter_eq_nil_iff]
    intro a ha
    simp only [decide_eq_true_eq, Decidable.not_not]
    exact List.mem_map_of_mem _ ha
  rw [hold, hnew, List.append_nil]

/-- Witness for C1: a two-payload batch over an empty store where the
second insert fails infrastructurally; the handler reports failure, the
compensating delete hits exactly the first payload's identifier, and the
store is back to empty. -/
theorem c1_partial_failure_rolled_back_witness :
    (Store.wf ⟨[], 0⟩ = true) ∧
    ((execute_function_in_parallel [true, false] "u" [.obj [], .obj []]
        ⟨[], 0⟩).1.any (fun o => o.isNone) = true) ∧
    ((activity_add (fun _ => none)
        (some (.obj [("activities", .arr [.obj [], .obj []])]))
        [true, false] "u" ⟨[], 0⟩).response = .failedToCreate ∧
      (activity_add (fun _ => none)
        (some (.obj [("activities", .arr [.obj [], .obj []])]))
        [true, false] "u" ⟨[], 0⟩).deleted
        = (execute_function_in_parallel [true, false] "u" [.obj [], .obj []]
            ⟨[], 0⟩).1.filterMap (fun o => o) ∧
      (activity_add (fun _ => none)
        (some (.obj [("activities", .arr [.obj [], .obj []])]))
        [true, false] "u" ⟨[], 0⟩).store.records = Store.records ⟨[], 0⟩) :=
  ⟨rfl, rfl,
    c1_partial_failure_rolled_back (fun _ => none) [.obj [], .obj []]
      [true, false] "u" ⟨[], 0⟩ rfl rfl⟩

/-- C2: the coordinator judges the batch successful (the truthiness test
on `result` after the aggregation loop, app.py line 587) exactly when
every per-payload outcome in the result list is a success - the aggregate
is the logical AND over all outcomes. -/
theorem c2_aggregate_is_logical_and (all_result : List (Option Nat)) :
    (loop_result all_result).truthy = true
      ↔ ∀ o ∈ all_result, o.isSome = true := by
  rw [loop_result_truthy]
  exact List.all_eq_true

/-- Counterexample to C3: there is no outcome list with an earlier failed
task and a succeeding last task that the aggregation loop judges
successful - the loop only ever overwrites the sentinel with falsy
values, so any failure anywhere makes the aggregate falsy. -/
theorem c3_counterexample :
    (∃ rs : List (Option Nat), none ∈ rs ∧
        (∃ id, rs.getLast? = some (some id)) ∧
        (loop_result rs).truthy = true) = False := by
  apply eq_false
  rintro ⟨rs, hnone, ⟨id, hlast⟩, htruthy⟩
  rw [loop_result_truthy] at htruthy
  have := List.all_eq_true.mp htruthy none hnone
  simp at this

/-- C3 amended: the success check is a strict conjunction after all - for
every outcome list in which some task failed, the aggregate is judged
failed even when the last task in iteration order succeeded. -/
theorem c3_amended_strict_conjunction (rs : List (Option Nat))
    (hfail : none ∈ rs) (_hlast : ∃ id, rs.getLast? = some (some id)) :
    (loop_result rs).truthy = false := by
  rw [loop_result_truthy]
  cases hall : rs.all (·.isSome) with
  | false => rfl
  | true =>
    have := List.all_eq_true.mp hall none hfail
    simp at this

/-- Witness for the amended C3: the outcome list `[none, some 1]` - an
earlier failure followed by a success - is judged failed. -/
theorem c3_amended_strict_conjunction_witness :
    (none ∈ ([none, some 1] : List (Option Nat))) ∧
    (∃ id, ([none, some 1] : List (Option Nat)).getLast? = some (some id)) ∧
    (loop_result [none, some 1]).truthy = false :=
  ⟨by decide, ⟨1, rfl⟩,
    c3_amended_strict_conjunction [none, some 1] (by decide) ⟨1, rfl⟩⟩

/-- Counterexample to C4: a batch submission whose `activities` list is
empty is answered with the 500 `Failed to create activity` response, not
a success response: concretely, on an empty store with no tasks to run,
the handler returns `failedToCreate`. -/
theorem c4_counterexample :
    (activity_add (fun _ => none) (some (.obj [("activities", .arr [])]))
        [] "u" ⟨[], 0⟩).response = .failedToCreate ∧
    AddResponse.statusCode (activity_add (fun _ => none)
        (some (.obj [("activities", .arr [])]))
        [] "u" ⟨[], 0⟩).response = 500 :=
  ⟨rfl, rfl⟩

/-- C4 amended: a batch of size zero passes the aggregation loop's
vacuous success check (the sentinel `1` survives), but `result` is then
replaced by the empty outcome list, which is falsy, so the handler
reports the 500 `Failed to create activity` response and leaves the store
untouched, with no insert attempted and no delete issued. -/
theorem c4_amended_empty_batch_reports_failure (parse : String → Option Json)
    (oracle : List Bool) (owner : String) (s : Store) :
    (loop_result (execute_function_in_parallel oracle owner [] s).1).truthy
        = true ∧
    activity_add parse (some (.obj [("activities", .arr [])])) oracle owner s
        = ⟨.failedToCreate, s, [], []⟩ :=
  ⟨rfl, rfl⟩

/-- Unfolding of `activity_add` on a dict payload without an `activities`
key: the handler takes the direct single-insert branch (app.py line 595). -/
theorem activity_add_single (parse : String → Option Json)
    (entries : List (String × Json)) (oracle : List Bool) (owner : String)
    (s : Store) (hany : entries.any (fun e => e.1 = "activities") = false) :
    activity_add parse (some (.obj entries)) oracle owner s
      = (if (ResVal.opt
              (add_activity (oracle.head?.getD true) (.obj entries) owner s).1).truthy
         then
           ⟨.created (.opt (add_activity (oracle.head?.getD true) (.obj entries)
                owner s).1),
             (add_activity (oracle.head?.getD true) (.obj entries) owner s).2,
             [.obj entries], []⟩
         else
           ⟨.failedToCreate,
             (add_activity (oracle.head?.getD true) (.obj entries) owner s).2,
             [.obj entries], []⟩) := by
  show (match pyContains "activities" (.obj entries) with
    | .error _ => (⟨.serverError, s, [], []⟩ : AddOutcome)
    | .ok true =>
      match Json.obj entries with
      | .obj es =>
        match pyIter ((Json.lookup es "activities").getD (.arr [])) with
        | .error _ => ⟨.serverError, s, [], []⟩
        | .ok activities =>
          let run := execute_function_in_parallel oracle owner activities s
          let all_result := run.1
          if (loop_result all_result).truthy then
            if (ResVal.list all_result).truthy then
              ⟨.created (.list all_result), run.2, activities, []⟩
            else
              ⟨.failedToCreate, run.2, activities, []⟩
          else
            let rb := rollback all_result run.2
            ⟨.failedToCreate, rb.1, activities, rb.2⟩
      | _ => ⟨.serverError, s, [], []⟩
    | .ok false =>
      let ins := add_activity (oracle.head?.getD true) (.obj entries) owner s
      if (ResVal.opt ins.1).truthy then
        ⟨.created (.opt ins.1), ins.2, [.obj entries], []⟩
      else
        ⟨.failedToCreate, ins.2, [.obj entries], []⟩) = _
  rw [show pyContains "activities" (.obj entries)
      = .ok (entries.any (fun e => e.1 = "activities")) from rfl, hany]

/-- C5: submitting one dict payload via the batch path (a batch of size 1)
and via the direct single-insert path leaves the same store state, both
when the insert succeeds (`ok = true`) and when it fails (`ok = false`);
and the direct path performs exactly one insert attempt with no rollback
deletes. The payload must not itself carry an `activities` key, else the
direct submission would be routed to the batch branch. -/
theorem c5_single_batch_equivalence (parse : String → Option Json) (ok : Bool)
    (entries : List (String × Json)) (owner : String) (s : Store)
    (hkey : entries.all (fun e => e.1 ≠ "activities") = true) :
    (activity_add parse (some (.obj [("activities", .arr [.obj entries])]))
        [ok] owner s).store
      = (activity_add parse (some (.obj entries)) [ok] owner s).store ∧
    (activity_add parse (some (.obj entries)) [ok] owner s).attempts
      = [.obj entries] ∧
    (activity_add parse (some (.obj entries)) [ok] owner s).deleted = [] := by
  have hany : entries.any (fun e => e.1 = "activities") = false := by
    cases h : entries.any (fun e => e.1 = "activities") with
    | false => rfl
    | true =>
      obtain ⟨e, he, heq⟩ := List.any_eq_true.mp h
      have := List.all_eq_true.mp hkey e he
      simp_all
  rw [activity_add_batch, activity_add_single parse entries [ok] owner s hany]
  cases ok with
  | true => exact ⟨rfl, rfl, rfl⟩
  | false => exact ⟨rfl, rfl, rfl⟩

/-- Witness for C5: the payload `{"start_time": "t"}` submitted over an
empty store, once with the insert succeeding, applied through the
equivalence theorem. -/
theorem c5_single_batch_equivalence_witness :
    (([("start_time", Json.str "t")] : List (String × Json)).all
        (fun e => e.1 ≠ "activities") = true) ∧
    ((activity_add (fun _ => none)
        (some (.obj [("activities", .arr [.obj [("start_time", .str "t")]])]))
        [true] "u" ⟨[], 0⟩).store
      = (activity_add (fun _ => none)
          (some (.obj [("start_time", .str "t")])) [true] "u" ⟨[], 0⟩).store ∧
      (activity_add (fun _ => none)
        (some (.obj [("start_time", .str "t")])) [true] "u" ⟨[], 0⟩).attempts
        = [.obj [("start_time", .str "t")]] ∧
      (activity_add (fun _ => none)
        (some (.obj [("start_time", .str "t")])) [true] "u" ⟨[], 0⟩).deleted
        = []) :=
  ⟨by decide,
    c5_single_batch_equivalence (fun _ => none) true [("start_time", .str "t")]
      "u" ⟨[], 0⟩ (by decide)⟩

/-- C6: identity resolution yields Unauthenticated (`none`) for every
header whose stripped token is empty (missing or empty token), for every
token the jwt library reports as invalid or expired, and for every
validly decoded token whose subject matches no user in the store; the
resolver is a total function, so no failure mode throws to the caller. -/
theorem c6_resolution_fails_closed (jwt_decode : String → JwtOutcome)
    (users : List User) (auth_header : Option String)
    (h : pyReplace (auth_header.getD "") "Token " "" = ""
       ∨ jwt_decode (pyReplace (auth_header.getD "") "Token " "") = .expired
       ∨ jwt_decode (pyReplace (auth_header.getD "") "Token " "") = .invalid
       ∨ ∃ sub, jwt_decode (pyReplace (auth_header.getD "") "Token " "") = .ok sub
           ∧ users.all (fun u => u.id ≠ sub) = true) :
    load_user_from_request jwt_decode users auth_header = none := by
  unfold load_user_from_request
  by_cases hT : pyReplace (auth_header.getD "") "Token " "" = ""
  · simp [hT]
  · rcases h with h | h | h | ⟨sub, hsub, hnone⟩
    · exact absurd h hT
    · simp [hT, decode_auth_token, h]
    · simp [hT, decode_auth_token, h]
    · simp only [hT, if_false, decode_auth_token, hsub]
      by_cases hempty : sub = ""
      · simp [hempty]
      · simp only [hempty, if_false, load_user]
        rw [List.find?_eq_none]
        intro u hu
        have := List.all_eq_true.mp hnone u hu
        simpa using this

/-- Witness for C6: the header `Token tok` with a decoder that reports
the token `tok` expired resolves to no user. -/
theorem c6_resolution_fails_closed_witness :
    (pyReplace ((some "Token tok").getD "") "Token " "" = ""
       ∨ (fun t => if t = "tok" then JwtOutcome.expired else .invalid)
           (pyReplace ((some "Token tok").getD "") "Token " "") = .expired
       ∨ (fun t => if t = "tok" then JwtOutcome.expired else .invalid)
           (pyReplace ((some "Token tok").getD "") "Token " "") = .invalid
       ∨ ∃ sub, (fun t => if t = "tok" then JwtOutcome.expired else .invalid)
             (pyReplace ((some "Token tok").getD "") "Token " "") = .ok sub
           ∧ ([⟨"alice"⟩] : List User).all (fun u => u.id ≠ sub) = true) ∧
    load_user_from_request
        (fun t => if t = "tok" then JwtOutcome.expired else .invalid)
        [⟨"alice"⟩] (some "Token tok") = none :=
  have hd : (fun t => if t = "tok" then JwtOutcome.expired else .invalid)
      (pyReplace ((some "Token tok").getD "") "Token " "") = .expired := by
    rw [show pyReplace ((some "Token tok").getD "") "Token " "" = "tok" from rfl]
    rfl
  ⟨Or.inr (Or.inl hd),
    c6_resolution_fails_closed _ [⟨"alice"⟩] (some "Token tok")
      (Or.inr (Or.inl hd))⟩

/-- C7: the single-user query path passes at most 1000 as the number of
items to return and the project-scoped path at most 10000, whatever the
caller requests; a request for 5000 is capped to 1000 on the single-user
path and passed as 5000 (at most 10000) on the project path. -/
theorem c7_query_caps :
    (∀ requested : Option Int, activity_find_amount requested ≤ 1000) ∧
    (∀ requested : Option Int, project_activities_amount requested ≤ 10000) ∧
    activity_find_amount (some 5000) = 1000 ∧
    project_activities_amount (some 5000) = 5000 := by
  refine ⟨fun r => min_le_right _ _, fun r => min_le_right _ _, ?_, ?_⟩ <;>
    decide

/-- Counterexample to C8: the payload `"5"` - a string that json-parses,
but not to a mapping - is in the claim's scope ("neither a well-formed
mapping nor a string that parses to one"), yet the handler does not
report Wrong format: `json.loads` succeeds, `'activities' in 5` raises
`TypeError`, and the request dies with the framework's 500 page. -/
theorem c8_counterexample :
    (activity_add (fun str => if str = "5" then some (.num 5) else none)
        (some (.str "5")) [] "u" ⟨[], 0⟩).response = .serverError ∧
    AddResponse.statusCode (activity_add
        (fun str => if str = "5" then some (.num 5) else none)
        (some (.str "5")) [] "u" ⟨[], 0⟩).response = 500 :=
  ⟨rfl, rfl⟩

/-- C8 amended: a payload that is absent, or a JSON value that is neither
a mapping nor a string, or a string that fails to json-parse, is answered
with the 400 Wrong format response immediately - the store is untouched,
no insert is attempted and no delete issued. A string that parses to a
non-mapping, however, passes this check and flows on. -/
theorem c8_amended_malformed_rejected_before_insert
    (parse : String → Option Json) (raw : Option Json) (oracle : List Bool)
    (owner : String) (s : Store)
    (h : raw = none
       ∨ (∃ v, raw = some v ∧ v.isObj = false ∧ v.isStr = false)
       ∨ (∃ str, raw = some (.str str) ∧ parse str = none)) :
    activity_add parse raw oracle owner s = ⟨.wrongFormat, s, [], []⟩ := by
  have hget : get_activity_data parse raw = none := by
    rcases h with h | ⟨v, hv, hobj, hstr⟩ | ⟨str, hstr, hparse⟩
    · rw [h]; rfl
    · subst hv
      cases v <;> simp_all [get_activity_data, Json.isObj, Json.isStr]
    · subst hstr
      simpa [get_activity_data, Json.isObj] using hparse
  show (match get_activity_data parse raw with
    | none => (⟨.wrongFormat, s, [], []⟩ : AddOutcome)
    | some activity_data =>
      match pyContains "activities" activity_data with
      | .error _ => ⟨.serverError, s, [], []⟩
      | .ok true =>
        match activity_data with
        | .obj entries =>
          match pyIter ((Json.lookup entries "activities").getD (.arr [])) with
          | .error _ => ⟨.serverError, s, [], []⟩
          | .ok activities =>
            let run := execute_function_in_parallel oracle owner activities s
            let all_result := run.1
            if (loop_result all_result).truthy then
              if (ResVal.list all_result).truthy then
                ⟨.created (.list all_result), run.2, activities, []⟩
              else
                ⟨.failedToCreate, run.2, activities, []⟩
            else
              let rb := rollback all_result run.2
              ⟨.failedToCreate, rb.1, activities, rb.2⟩
        | _ => ⟨.serverError, s, [], []⟩
      | .ok false =>
        let ins := add_activity (oracle.head?.getD true) activity_data owner s
        if (ResVal.opt ins.1).truthy then
          ⟨.created (.opt ins.1), ins.2, [activity_data], []⟩
        else
          ⟨.failedToCreate, ins.2, [activity_data], []⟩) = _
  rw [hget]

/-- Witness for the amended C8: the payload `[1]` - a JSON array, neither
a mapping nor a string - is answered Wrong format over an empty store. -/
theorem c8_amended_malformed_rejected_before_insert_witness :
    ((some (Json.arr [.num 1]) = none
       ∨ (∃ v, some (Json.arr [.num 1]) = some v ∧ v.isObj = false
             ∧ v.isStr = false)
       ∨ (∃ str, some (Json.arr [.num 1]) = some (.str str)
             ∧ (fun _ : String => (none : Option Json)) str = none))) ∧
    activity_add (fun _ => none) (some (.arr [.num 1])) [] "u" ⟨[], 0⟩
      = ⟨.wrongFormat, ⟨[], 0⟩, [], []⟩ :=
  ⟨Or.inr (Or.inl ⟨.arr [.num 1], rfl, rfl, rfl⟩),
    c8_amended_malformed_rejected_before_insert (fun _ => none)
      (some (.arr [.num 1])) [] "u" ⟨[], 0⟩
      (Or.inr (Or.inl ⟨.arr [.num 1], rfl, rfl, rfl⟩))⟩

/-- C9: an activity-deletion request whose `activity_id` is missing or
empty is answered with HTTP status 200, not 400 - the 400 code ends up
inside the JSON body because it is passed to `jsonify` rather than
`make_response` - and the delete primitive is never invoked. -/
theorem c9_empty_delete_returns_200 (del_outcome : Option Nat)
    (activity_id : Option String)
    (h : activity_id = none ∨ activity_id = some "") :
    (activity_delete del_outcome activity_id).1.status = 200 ∧
    (activity_delete del_outcome activity_id).1.body
      = .arr [.obj [("message", .str "Empty data")], .num 400] ∧
    (activity_delete del_outcome activity_id).2 = false := by
  rcases h with h | h <;> subst h <;> exact ⟨rfl, rfl, rfl⟩

/-- Witness for C9: a request with no `activity_id` field at all, with
the store primitive poised to report one affected row had it been
called. -/
theorem c9_empty_delete_returns_200_witness :
    ((none : Option String) = none ∨ (none : Option String) = some "") ∧
    ((activity_delete (some 1) none).1.status = 200 ∧
      (activity_delete (some 1) none).1.body
        = .arr [.obj [("message", .str "Empty data")], .num 400] ∧
      (activity_delete (some 1) none).2 = false) :=
  ⟨Or.inl rfl, c9_empty_delete_returns_200 (some 1) none (Or.inl rfl)⟩

/-- C10: the logout handler returns the Success body with HTTP status 200
unconditionally - the response is the same whether or not the underlying
logout primitive raises, the exception being logged and swallowed. -/
theorem c10_logout_always_succeeds :
    (∀ logout_raises : Bool,
      (logout logout_raises).1
        = ⟨.obj [("message", .str "Success")], 200⟩) ∧
    (logout true).1 = (logout false).1 :=
  ⟨fun _ => rfl, rfl⟩

end DashboardLogger
